import Mathlib

/-!
Shallow embedding of the cgos-rs safe access layer (src/src of the repository)
for verification of its specification.

Conventions of the embedding:
- machine integers u32/u16/usize are represented as Nat; i32 values as Int,
  with explicit two complement reinterpretation where the source casts;
- f32 arithmetic of the source is modelled by exact rational arithmetic;
  division by 1000.0 and multiplication by 1000.0 become exact operations on
  the rationals, and the saturating float-to-int cast of Rust becomes
  truncation toward zero with clamping to the i32 range;
- the raw vendor call surface (generated bindings, an external collaborator)
  is modelled as an environment of oracle functions; every embedded operation
  returns, next to its result, the list of raw calls it issued, so that
  frame and effect claims can be stated; an assert on a zero return code is
  modelled by an Option result, none meaning the assert fired;
- a Rust match arm that panics is modelled by an Option result, none meaning
  the panic.
-/

namespace Cgos

/-- Reinterpretation of a u32 value as an i32 (Rust cast as i32),
two complement. -/
def toI32 (n : Nat) : Int :=
  if n % 4294967296 < 2147483648 then ((n % 4294967296 : Nat) : Int)
  else ((n % 4294967296 : Nat) : Int) - 4294967296

/-- Reinterpretation of an i32 value as a u32 (Rust cast as u32),
two complement. -/
def intToU32 (i : Int) : Nat := (i % 4294967296).toNat

/-- Rust saturating cast from f32 to i32 (truncation toward zero, clamped to
the i32 range), on the rational model of f32. -/
def ratTruncSatI32 (q : ℚ) : Int :=
  let t := Int.tdiv q.num (q.den : Int)
  if t < -2147483648 then -2147483648
  else if t > 2147483647 then 2147483647
  else t

/-- Modelled from the spec: the raw I2C bus role constants of the vendor
header. The generated bindings that carry them are produced at build time
from the vendor header and are not part of src/; the values follow the
documented vendor vocabulary (unknown, primary, SMB, DDC). -/
def CGOS_I2C_TYPE_UNKNOWN : Nat := 0

/-- Modelled from the spec: documented primary I2C bus role constant. -/
def CGOS_I2C_TYPE_PRIMARY : Nat := 65536

/-- Modelled from the spec: documented SMB I2C bus role constant. -/
def CGOS_I2C_TYPE_SMB : Nat := 131072

/-- Modelled from the spec: documented DDC I2C bus role constant. -/
def CGOS_I2C_TYPE_DDC : Nat := 196608

/-- Modelled from the spec: the ten raw sensor type enumerants of the vendor
header (shared by the temperature and fan sensor kinds). They form the
closed ten value vocabulary the spec describes; the generated bindings that
carry them are not part of src/. -/
def CGOS_TEMP_CPU : Nat := 1

/-- Modelled from the spec: box sensor enumerant. -/
def CGOS_TEMP_BOX : Nat := 2

/-- Modelled from the spec: environment sensor enumerant. -/
def CGOS_TEMP_ENV : Nat := 3

/-- Modelled from the spec: board sensor enumerant. -/
def CGOS_TEMP_BOARD : Nat := 4

/-- Modelled from the spec: backplane sensor enumerant. -/
def CGOS_TEMP_BACKPLANE : Nat := 5

/-- Modelled from the spec: chipsets sensor enumerant. -/
def CGOS_TEMP_CHIPSETS : Nat := 6

/-- Modelled from the spec: video sensor enumerant. -/
def CGOS_TEMP_VIDEO : Nat := 7

/-- Modelled from the spec: other sensor enumerant. -/
def CGOS_TEMP_OTHER : Nat := 8

/-- Modelled from the spec: top DIMM environment sensor enumerant. -/
def CGOS_TEMP_TOPDIMM_ENV : Nat := 9

/-- Modelled from the spec: bottom DIMM environment sensor enumerant. -/
def CGOS_TEMP_BOTDIMM_ENV : Nat := 10

/-- Modelled from the spec: sensor status flag bits of the vendor header
(active, alarm, broken, short circuit), a bit mask over a small closed
vocabulary. -/
def CGOS_SENSOR_ACTIVE : Nat := 1

/-- Modelled from the spec: alarm status flag bit. -/
def CGOS_SENSOR_ALARM : Nat := 2

/-- Modelled from the spec: broken status flag bit. -/
def CGOS_SENSOR_BROKEN : Nat := 4

/-- Modelled from the spec: short circuit status flag bit. -/
def CGOS_SENSOR_SHORTCIRCUIT : Nat := 8

/-- Modelled from the spec: board class bits of the vendor header. -/
def CGOS_BOARD_CLASS_CPU : Nat := 1

/-- Modelled from the spec: VGA board class bit. -/
def CGOS_BOARD_CLASS_VGA : Nat := 2

/-- Modelled from the spec: IO board class bit. -/
def CGOS_BOARD_CLASS_IO : Nat := 4

/-- Modelled from the spec: storage area class constants of the vendor
header (unknown, EEPROM, flash, CMOS, RAM). -/
def CGOS_STORAGE_AREA_UNKNOWN : Nat := 0

/-- Modelled from the spec: EEPROM storage area constant. -/
def CGOS_STORAGE_AREA_EEPROM : Nat := 65536

/-- Modelled from the spec: flash storage area constant. -/
def CGOS_STORAGE_AREA_FLASH : Nat := 131072

/-- Modelled from the spec: CMOS storage area constant. -/
def CGOS_STORAGE_AREA_CMOS : Nat := 196608

/-- Modelled from the spec: RAM storage area constant. -/
def CGOS_STORAGE_AREA_RAM : Nat := 262144

/-- Embedding of the bitflags type Status of src/src/status.rs lines 7 to 14:
a u32 bit set over the four sensor status flags. -/
structure Status where
  bits : Nat
deriving DecidableEq

/-- Union of all flag bits declared for Status; this is the mask the bitflags
macro uses for truncation. -/
def Status.mask : Nat :=
  CGOS_SENSOR_ACTIVE ||| CGOS_SENSOR_ALARM ||| CGOS_SENSOR_BROKEN |||
    CGOS_SENSOR_SHORTCIRCUIT

/-- Embedding of Status::from_bits_truncate of the bitflags macro: keep only
the declared bits. -/
def Status.from_bits_truncate (x : Nat) : Status := ⟨x &&& Status.mask⟩

/-- Embedding of the bitflags type BoardClass of src/src/board.rs lines 134
to 141 (ALL = 0, CPU, VGA, IO). -/
structure BoardClass where
  bits : Nat
deriving DecidableEq

/-- Union of all flag bits declared for BoardClass (the ALL flag is zero and
contributes nothing). -/
def BoardClass.mask : Nat :=
  0 ||| CGOS_BOARD_CLASS_CPU ||| CGOS_BOARD_CLASS_VGA ||| CGOS_BOARD_CLASS_IO

/-- Embedding of BoardClass::from_bits_truncate of the bitflags macro. -/
def BoardClass.from_bits_truncate (x : Nat) : BoardClass :=
  ⟨x &&& BoardClass.mask⟩

/-- Embedding of the bitflags type StorageAreaType of src/src/storage_area.rs
lines 148 to 156. -/
structure StorageAreaType where
  bits : Nat
deriving DecidableEq

/-- Union of all flag bits declared for StorageAreaType. -/
def StorageAreaType.mask : Nat :=
  CGOS_STORAGE_AREA_UNKNOWN ||| CGOS_STORAGE_AREA_EEPROM |||
    CGOS_STORAGE_AREA_FLASH ||| CGOS_STORAGE_AREA_CMOS ||| CGOS_STORAGE_AREA_RAM

/-- Embedding of StorageAreaType::from_bits_truncate of the bitflags macro. -/
def StorageAreaType.from_bits_truncate (x : Nat) : StorageAreaType :=
  ⟨x &&& StorageAreaType.mask⟩

/-- Embedding of the enum I2cErr of src/src/i2c.rs lines 11 to 18. -/
inductive I2cErr where
  | IdxOutOfRange
  | BusErr
deriving DecidableEq

/-- Embedding of the enum I2cType of src/src/i2c.rs lines 22 to 29. -/
inductive I2cType where
  | Unknown
  | Primary
  | Smb
  | Ddc
  | CongatecInternalUse (x : Nat)
deriving DecidableEq

/-- Embedding of the Into u32 impl for I2cType, src/src/i2c.rs lines 31
to 41. -/
def I2cType.intoU32 : I2cType → Nat
  | .Unknown => CGOS_I2C_TYPE_UNKNOWN
  | .Primary => CGOS_I2C_TYPE_PRIMARY
  | .Smb => CGOS_I2C_TYPE_SMB
  | .Ddc => CGOS_I2C_TYPE_DDC
  | .CongatecInternalUse x => x

/-- Embedding of the From u32 impl for I2cType, src/src/i2c.rs lines 43
to 54: the match arms are tried in source order, the wildcard arm produces
the escape variant. -/
def I2cType.fromU32 (value : Nat) : I2cType :=
  if value = CGOS_I2C_TYPE_UNKNOWN then .Unknown
  else if value = CGOS_I2C_TYPE_PRIMARY then .Primary
  else if value = CGOS_I2C_TYPE_SMB then .Smb
  else if value = CGOS_I2C_TYPE_DDC then .Ddc
  else .CongatecInternalUse value

/-- Embedding of the enum TemperatureType of src/src/temperature.rs lines 116
to 128. -/
inductive TemperatureType where
  | Cpu
  | Box
  | Environment
  | Board
  | Backplane
  | Chipsets
  | Video
  | TopRAMEnvironment
  | BottomRAMEnvironment
  | Other
deriving DecidableEq

/-- Embedding of the Into u32 impl for TemperatureType, src/src/temperature.rs
lines 130 to 145. -/
def TemperatureType.intoU32 : TemperatureType → Nat
  | .Cpu => CGOS_TEMP_CPU
  | .Box => CGOS_TEMP_BOX
  | .Environment => CGOS_TEMP_ENV
  | .Board => CGOS_TEMP_BOARD
  | .Backplane => CGOS_TEMP_BACKPLANE
  | .Chipsets => CGOS_TEMP_CHIPSETS
  | .Video => CGOS_TEMP_VIDEO
  | .Other => CGOS_TEMP_OTHER
  | .TopRAMEnvironment => CGOS_TEMP_TOPDIMM_ENV
  | .BottomRAMEnvironment => CGOS_TEMP_BOTDIMM_ENV

/-- Embedding of the From u32 impl for TemperatureType, src/src/temperature.rs
lines 147 to 162: none models the panic of the wildcard arm. -/
def TemperatureType.fromU32? (value : Nat) : Option TemperatureType :=
  if value = CGOS_TEMP_CPU then some .Cpu
  else if value = CGOS_TEMP_BOX then some .Box
  else if value = CGOS_TEMP_ENV then some .Environment
  else if value = CGOS_TEMP_BOARD then some .Board
  else if value = CGOS_TEMP_BACKPLANE then some .Backplane
  else if value = CGOS_TEMP_CHIPSETS then some .Chipsets
  else if value = CGOS_TEMP_VIDEO then some .Video
  else if value = CGOS_TEMP_OTHER then some .Other
  else if value = CGOS_TEMP_TOPDIMM_ENV then some .TopRAMEnvironment
  else if value = CGOS_TEMP_BOTDIMM_ENV then some .BottomRAMEnvironment
  else none

/-- Embedding of the enum FanType of src/src/fan.rs lines 119 to 131. -/
inductive FanType where
  | Cpu
  | Box
  | Environment
  | Board
  | Backplane
  | Chipsets
  | Video
  | TopRAMEnvironment
  | BottomRAMEnvironment
  | Other
deriving DecidableEq

/-- Embedding of the Into u32 impl for FanType, src/src/fan.rs lines 133
to 148. -/
def FanType.intoU32 : FanType → Nat
  | .Cpu => CGOS_TEMP_CPU
  | .Box => CGOS_TEMP_BOX
  | .Environment => CGOS_TEMP_ENV
  | .Board => CGOS_TEMP_BOARD
  | .Backplane => CGOS_TEMP_BACKPLANE
  | .Chipsets => CGOS_TEMP_CHIPSETS
  | .Video => CGOS_TEMP_VIDEO
  | .Other => CGOS_TEMP_OTHER
  | .TopRAMEnvironment => CGOS_TEMP_TOPDIMM_ENV
  | .BottomRAMEnvironment => CGOS_TEMP_BOTDIMM_ENV

/-- Embedding of the From u32 impl for FanType, src/src/fan.rs lines 150
to 166: none models the panic of the wildcard arm. -/
def FanType.fromU32? (value : Nat) : Option FanType :=
  if value = CGOS_TEMP_CPU then some .Cpu
  else if value = CGOS_TEMP_BOX then some .Box
  else if value = CGOS_TEMP_ENV then some .Environment
  else if value = CGOS_TEMP_BOARD then some .Board
  else if value = CGOS_TEMP_BACKPLANE then some .Backplane
  else if value = CGOS_TEMP_CHIPSETS then some .Chipsets
  else if value = CGOS_TEMP_VIDEO then some .Video
  else if value = CGOS_TEMP_OTHER then some .Other
  else if value = CGOS_TEMP_TOPDIMM_ENV then some .TopRAMEnvironment
  else if value = CGOS_TEMP_BOTDIMM_ENV then some .BottomRAMEnvironment
  else none

/-- The list of the ten raw sensor type enumerants, the closed vocabulary of
the two sensor kinds. -/
def sensorTypeValues : List Nat :=
  [CGOS_TEMP_CPU, CGOS_TEMP_BOX, CGOS_TEMP_ENV, CGOS_TEMP_BOARD,
   CGOS_TEMP_BACKPLANE, CGOS_TEMP_CHIPSETS, CGOS_TEMP_VIDEO, CGOS_TEMP_OTHER,
   CGOS_TEMP_TOPDIMM_ENV, CGOS_TEMP_BOTDIMM_ENV]

/-- Embedding of the raw self describing snapshot struct CGOSTEMPERATUREINFO
of the generated bindings; eleven u32 fields, as accessed by
src/src/temperature.rs. Its byte size, stamped into dwSize, is 44. -/
structure CGOSTEMPERATUREINFO where
  dwSize : Nat
  dwType : Nat
  dwFlags : Nat
  dwAlarm : Nat
  dwRes : Nat
  dwMin : Nat
  dwMax : Nat
  dwAlarmHi : Nat
  dwHystHi : Nat
  dwAlarmLo : Nat
  dwHystLo : Nat
deriving DecidableEq

/-- Embedding of the struct TemperatureInfo of src/src/temperature.rs lines 67
to 79; the f32 fields are modelled by rationals. -/
structure TemperatureInfo where
  type_ : TemperatureType
  status : Status
  alarm : Nat
  resolution : ℚ
  minimum : ℚ
  maximum : ℚ
  alarm_high : ℚ
  hysteresis_high : ℚ
  alarm_low : ℚ
  hysteresis_low : ℚ
deriving DecidableEq

/-- Embedding of the From CGOSTEMPERATUREINFO impl for TemperatureInfo,
src/src/temperature.rs lines 81 to 96: each fixed point field is read as
i32 and divided by 1000.0; none models the panic of the type decode. -/
def TemperatureInfo.fromRaw (info : CGOSTEMPERATUREINFO) :
    Option TemperatureInfo :=
  (TemperatureType.fromU32? info.dwType).map fun t =>
    { type_ := t
      status := Status.from_bits_truncate info.dwFlags
      alarm := info.dwAlarm
      resolution := (toI32 info.dwRes : ℚ) / 1000
      minimum := (toI32 info.dwMin : ℚ) / 1000
      maximum := (toI32 info.dwMax : ℚ) / 1000
      alarm_high := (toI32 info.dwAlarmHi : ℚ) / 1000
      hysteresis_high := (toI32 info.dwHystHi : ℚ) / 1000
      alarm_low := (toI32 info.dwAlarmLo : ℚ) / 1000
      hysteresis_low := (toI32 info.dwHystLo : ℚ) / 1000 }

/-- Embedding of the Into CGOSTEMPERATUREINFO impl for TemperatureInfo,
src/src/temperature.rs lines 98 to 114: each f32 field is multiplied by
1000.0 and cast as i32 as u32; the size field is stamped with the struct
size. -/
def TemperatureInfo.intoRaw (i : TemperatureInfo) : CGOSTEMPERATUREINFO :=
  { dwSize := 44
    dwType := i.type_.intoU32
    dwFlags := i.status.bits
    dwAlarm := i.alarm
    dwRes := intToU32 (ratTruncSatI32 (i.resolution * 1000))
    dwMin := intToU32 (ratTruncSatI32 (i.minimum * 1000))
    dwMax := intToU32 (ratTruncSatI32 (i.maximum * 1000))
    dwAlarmHi := intToU32 (ratTruncSatI32 (i.alarm_high * 1000))
    dwHystHi := intToU32 (ratTruncSatI32 (i.hysteresis_high * 1000))
    dwAlarmLo := intToU32 (ratTruncSatI32 (i.alarm_low * 1000))
    dwHystLo := intToU32 (ratTruncSatI32 (i.hysteresis_low * 1000)) }

/-- Embedding of the raw snapshot struct CGOSFANINFO of the generated
bindings; thirteen u32 fields, as accessed by src/src/fan.rs. -/
structure CGOSFANINFO where
  dwSize : Nat
  dwType : Nat
  dwFlags : Nat
  dwAlarm : Nat
  dwSpeedNom : Nat
  dwMin : Nat
  dwMax : Nat
  dwAlarmHi : Nat
  dwHystHi : Nat
  dwAlarmLo : Nat
  dwHystLo : Nat
  dwOutMin : Nat
  dwOutMax : Nat
deriving DecidableEq

/-- Embedding of the struct FanInfo of src/src/fan.rs lines 64 to 78; all
numeric fields are i32 in the source. -/
structure FanInfo where
  type_ : FanType
  status : Status
  alarm : Int
  speed_nominal : Int
  minimum : Int
  maximum : Int
  alarm_high : Int
  hysteresis_high : Int
  alarm_low : Int
  hysteresis_low : Int
  out_minimum : Int
  out_maximum : Int
deriving DecidableEq

/-- Embedding of the From CGOSFANINFO impl for FanInfo, src/src/fan.rs lines
80 to 97: each raw field is reinterpreted as i32, with no scaling; none
models the panic of the type decode. -/
def FanInfo.fromRaw (info : CGOSFANINFO) : Option FanInfo :=
  (FanType.fromU32? info.dwType).map fun t =>
    { type_ := t
      status := Status.from_bits_truncate info.dwFlags
      alarm := toI32 info.dwAlarm
      speed_nominal := toI32 info.dwSpeedNom
      minimum := toI32 info.dwMin
      maximum := toI32 info.dwMax
      alarm_high := toI32 info.dwAlarmHi
      hysteresis_high := toI32 info.dwHystHi
      alarm_low := toI32 info.dwAlarmLo
      hysteresis_low := toI32 info.dwHystLo
      out_minimum := toI32 info.dwOutMin
      out_maximum := toI32 info.dwOutMax }

/-- Embedding of the product revision decoding block of the From
CGOSBOARDINFOA impl for BoardInfo, src/src/board.rs lines 180 to 184: the
high byte of the packed u16 becomes the major ASCII character, the low byte
the minor ASCII character, joined by a literal dot. -/
def decodeProductRevision (wProductRevision : Nat) : String :=
  ⟨[Char.ofNat ((wProductRevision &&& 0xff00) >>> 8), '.',
    Char.ofNat (wProductRevision &&& 0xff)]⟩

/-- Oracle model of the raw vendor call surface: each field gives the value
the corresponding raw function returns (for CgosBoardGetBootCounter the pair
of return code and written out parameter). -/
structure CgosEnv where
  boardGetBootCounter : Nat → Nat × Nat
  i2cCount : Nat → Nat
  i2cIsAvailable : Nat → Nat → Nat
  storageAreaSize : Nat → Nat → Nat

/-- One raw call into the vendor call surface, recorded with its arguments;
used to state which calls an embedded operation issues. -/
inductive RawCall where
  | boardGetBootCounter (handle : Nat)
  | i2cCount (handle : Nat)
  | i2cIsAvailable (handle : Nat) (index : Nat)
  | i2cRead (handle : Nat) (index : Nat)
  | i2cWrite (handle : Nat) (index : Nat)
  | storageAreaSize (handle : Nat) (unit : Nat)
deriving DecidableEq

/-- Embedding of Board::boot_count of src/src/board.rs lines 78 to 85: one
CgosBoardGetBootCounter query, an assert that its return code is nonzero
(none models the assert firing), the written counter returned as usize. -/
def Board.boot_count (env : CgosEnv) (handle : Nat) :
    Option Nat × List RawCall :=
  let res := env.boardGetBootCounter handle
  (if res.1 ≠ 0 then some res.2 else none,
   [RawCall.boardGetBootCounter handle])

/-- Embedding of Board::running_time of src/src/board.rs lines 87 to 94: the
same CgosBoardGetBootCounter query, the written value treated as hours and
converted to a Duration (modelled by its number of seconds). The u64
multiplication cannot overflow for a u32 counter, so plain Nat
multiplication is faithful. -/
def Board.running_time (env : CgosEnv) (handle : Nat) :
    Option Nat × List RawCall :=
  let res := env.boardGetBootCounter handle
  (if res.1 ≠ 0 then some (res.2 * 60 * 60) else none,
   [RawCall.boardGetBootCounter handle])

/-- Embedding of the struct I2c of src/src/i2c.rs lines 56 to 61: the board
handle and the zero based bus index. -/
structure I2c where
  handle : Nat
  index : Nat
deriving DecidableEq

/-- Embedding of I2c::new of src/src/i2c.rs lines 63 to 76: one CgosI2CCount
query; Nat subtraction models usize saturating_sub; a failing usize to u32
conversion of the index is mapped to IdxOutOfRange like in the source. -/
def I2c.new (env : CgosEnv) (handle : Nat) (index : Nat) :
    Except I2cErr I2c × List RawCall :=
  let num_busses := env.i2cCount handle
  if index > num_busses - 1 then
    (Except.error I2cErr.IdxOutOfRange, [RawCall.i2cCount handle])
  else if index < 4294967296 then
    (Except.ok { handle := handle, index := index }, [RawCall.i2cCount handle])
  else
    (Except.error I2cErr.IdxOutOfRange, [RawCall.i2cCount handle])

/-- Embedding of I2c::is_available of src/src/i2c.rs lines 87 to 90: one
CgosI2CIsAvailable query, compared against the literal 1. -/
def I2c.is_available (env : CgosEnv) (bus : I2c) : Bool × List RawCall :=
  (env.i2cIsAvailable bus.handle bus.index == 1,
   [RawCall.i2cIsAvailable bus.handle bus.index])

/-- Embedding of the struct StorageArea of src/src/storage_area.rs lines 13
to 17: the board handle and the unit selector. -/
structure StorageArea where
  handle : Nat
  unit : Nat
deriving DecidableEq

/-- Embedding of StorageArea::from_index of src/src/storage_area.rs lines 24
to 30: records the handle and the index (none models the unwrap of a failing
usize to u32 conversion); no raw call is issued, hence the empty trace. -/
def StorageArea.from_index (handle : Nat) (index : Nat) :
    Option StorageArea × List RawCall :=
  (if index < 4294967296 then some { handle := handle, unit := index }
   else none, [])

/-- Embedding of StorageArea::from_type of src/src/storage_area.rs lines 32
to 38: records the handle and the bits of the requested type; no raw call is
issued, hence the empty trace. -/
def StorageArea.from_type (handle : Nat) (type_ : StorageAreaType) :
    StorageArea × List RawCall :=
  ({ handle := handle, unit := type_.bits }, [])

/-- Embedding of StorageArea::size of src/src/storage_area.rs lines 44 to 46:
one CgosStorageAreaSize query. -/
def StorageArea.size (env : CgosEnv) (area : StorageArea) :
    Nat × List RawCall :=
  (env.storageAreaSize area.handle area.unit,
   [RawCall.storageAreaSize area.handle area.unit])

/-- Oracle environment on which every bus count query reports zero buses and
every boot counter query succeeds with counter zero; used to evaluate the
embedded code on a board without I2C buses. -/
def envZero : CgosEnv :=
  { boardGetBootCounter := fun _ => (1, 0)
    i2cCount := fun _ => 0
    i2cIsAvailable := fun _ _ => 0
    storageAreaSize := fun _ _ => 0 }

/-- Oracle environment whose boot counter query succeeds with counter value
5; used to evaluate the boot counter claims on a concrete board. -/
def envBoot : CgosEnv :=
  { boardGetBootCounter := fun _ => (1, 5)
    i2cCount := fun _ => 1
    i2cIsAvailable := fun _ _ => 1
    storageAreaSize := fun _ _ => 0 }

/-- Concrete domain snapshot with resolution one eighth (0.125) and all
other measurements zero; the input of the fixed point round trip property. -/
def resolutionEighth : TemperatureInfo :=
  { type_ := .Cpu
    status := ⟨0⟩
    alarm := 0
    resolution := 0.125
    minimum := 0
    maximum := 0
    alarm_high := 0
    hysteresis_high := 0
    alarm_low := 0
    hysteresis_low := 0 }

/-- Concrete raw fan snapshot whose dwMin field holds the raw value 125, all
other measurement fields zero, and a CPU type enumerant. -/
def fanRaw125 : CGOSFANINFO :=
  { dwSize := 52
    dwType := CGOS_TEMP_CPU
    dwFlags := 0
    dwAlarm := 0
    dwSpeedNom := 0
    dwMin := 125
    dwMax := 0
    dwAlarmHi := 0
    dwHystHi := 0
    dwAlarmLo := 0
    dwHystLo := 0
    dwOutMin := 0
    dwOutMax := 0 }

/-- Converted form of fanRaw125 under the fan info conversion: every raw
field reinterpreted as i32, without scaling. -/
def fanConv125 : FanInfo :=
  { type_ := .Cpu
    status := ⟨0⟩
    alarm := 0
    speed_nominal := 0
    minimum := 125
    maximum := 0
    alarm_high := 0
    hysteresis_high := 0
    alarm_low := 0
    hysteresis_low := 0
    out_minimum := 0
    out_maximum := 0 }

/-- Masking twice with the same mask gives the same result as masking once;
the bit level core of the truncation idempotence of the bitflags types. -/
theorem and_mask_idem (x m : Nat) : (x &&& m) &&& m = x &&& m := by
  rw [Nat.and_assoc, Nat.and_self]

/-- Extracting the high byte of a u16 by masking with 0xff00 and shifting
right by 8 equals shifting right by 8 and masking with 0xff. -/
theorem and_ff00_shiftRight (w : Nat) :
    (w &&& 65280) >>> 8 = (w >>> 8) &&& 255 := by
  apply Nat.eq_of_testBit_eq
  intro i
  rw [Nat.testBit_shiftRight, Nat.testBit_and, Nat.testBit_and,
    Nat.testBit_shiftRight]
  congr 1
  rcases Nat.lt_or_ge i 8 with h | h
  · interval_cases i <;> decide
  · have h1 : Nat.testBit 255 i = false := Nat.testBit_lt_two_pow (by
      calc (255 : Nat) < 2 ^ 8 := by norm_num
        _ ≤ 2 ^ i := Nat.pow_le_pow_right (by norm_num) h)
    have h2 : Nat.testBit 65280 (8 + i) = false := Nat.testBit_lt_two_pow (by
      calc (65280 : Nat) < 2 ^ 16 := by norm_num
        _ ≤ 2 ^ (8 + i) := Nat.pow_le_pow_right (by norm_num) (by omega))
    rw [h1, h2]

/-- Masking with 0xff extracts the low byte. -/
theorem and_255_mod (w : Nat) : w &&& 255 = w % 256 := by
  have := Nat.and_pow_two_sub_one_eq_mod w 8
  norm_num at this
  exact this

/-- Round trip of the concrete snapshot with resolution 0.125 through the
raw layout and back: it is recovered unchanged. -/
theorem fromRaw_intoRaw_resolutionEighth :
    TemperatureInfo.fromRaw (TemperatureInfo.intoRaw resolutionEighth) =
      some resolutionEighth := by
  simp only [TemperatureInfo.fromRaw, TemperatureInfo.intoRaw,
    resolutionEighth, TemperatureType.fromU32?, TemperatureType.intoU32,
    CGOS_TEMP_CPU, Status.from_bits_truncate, Status.mask, CGOS_SENSOR_ACTIVE,
    CGOS_SENSOR_ALARM, CGOS_SENSOR_BROKEN, CGOS_SENSOR_SHORTCIRCUIT]
  norm_num [ratTruncSatI32, intToU32, toI32, show Int.toNat 125 = 125 from rfl]

/-- C1: constructing an I2C bus accessor with index 0 on a board whose live
bus count is 0 does not return the out of range error: the embedded
I2c::new evaluates to Ok at this input, issuing only the bus count query
and no bus transaction. This refutes the claim that an index equal to or
greater than the live bus count always yields IdxOutOfRange, in particular
when the count is zero; the saturating subtraction in the bounds check lets
index 0 through when the count is 0. -/
theorem i2c_new_zero_buses_accepts_index_zero :
    envZero.i2cCount 7 = 0 ∧
    I2c.new envZero 7 0 =
      (Except.ok { handle := 7, index := 0 }, [RawCall.i2cCount 7]) :=
  ⟨rfl, rfl⟩

/-- C2: boot_count and running_time read from the same underlying boot
counter query (their raw call traces are the same single
CgosBoardGetBootCounter call); when that query yields counter value n with
a nonzero return code, boot_count returns n and running_time returns a
Duration of exactly n times 3600 seconds. -/
theorem boot_count_running_time_same_query (env : CgosEnv)
    (handle r n : Nat) (h : env.boardGetBootCounter handle = (r, n))
    (hr : r ≠ 0) :
    (Board.boot_count env handle).1 = some n ∧
    (Board.running_time env handle).1 = some (n * 3600) ∧
    (Board.boot_count env handle).2 = [RawCall.boardGetBootCounter handle] ∧
    (Board.running_time env handle).2 = (Board.boot_count env handle).2 := by
  simp [Board.boot_count, Board.running_time, h, hr]
  omega

/-- Witness for C2: on an environment whose boot counter query returns
(1, 5), boot_count yields 5 and running_time yields 18000 seconds. -/
theorem boot_count_running_time_witness :
    (Board.boot_count envBoot 1).1 = some 5 ∧
    (Board.running_time envBoot 1).1 = some (5 * 3600) ∧
    (Board.boot_count envBoot 1).2 = [RawCall.boardGetBootCounter 1] ∧
    (Board.running_time envBoot 1).2 = (Board.boot_count envBoot 1).2 :=
  boot_count_running_time_same_query envBoot 1 1 5 rfl (by decide)

/-- C3: for every packed u16 product revision value, the decoder produces
the string of the high byte as an ASCII character, a literal dot, and the
low byte as an ASCII character; in particular the packed value with high
byte 0x32 and low byte 0x31 decodes to the literal string 2.1. -/
theorem product_revision_decoding :
    (∀ w, w < 65536 → decodeProductRevision w =
      ⟨[Char.ofNat (w / 256), '.', Char.ofNat (w % 256)]⟩) ∧
    decodeProductRevision 0x3231 = "2.1" := by
  constructor
  · intro w hw
    have e2 : (w &&& 65280) >>> 8 = w / 256 := by
      rw [and_ff00_shiftRight, and_255_mod, Nat.shiftRight_eq_div_pow]
      norm_num
      omega
    simp only [decodeProductRevision]
    rw [show (0xff00 : Nat) = 65280 from rfl, show (0xff : Nat) = 255 from rfl,
      e2, and_255_mod]
  · decide

/-- Witness for C3: the general byte decomposition applied to the packed
value 0x3231. -/
theorem product_revision_decoding_witness :
    (0x3231 : Nat) < 65536 ∧
    decodeProductRevision 0x3231 =
      ⟨[Char.ofNat (0x3231 / 256), '.', Char.ofNat (0x3231 % 256)]⟩ :=
  ⟨by decide, product_revision_decoding.1 0x3231 (by decide)⟩

/-- Counterexample for C4: the fan info conversion does not divide by 1000.
On the raw fan snapshot with dwMin = 125 the converted minimum field is the
engineering value 125, not 125 divided by 1000: the fan fields are
reinterpreted as signed integers without any milli unit scaling. -/
theorem fan_info_not_milli_scaled :
    (FanInfo.fromRaw fanRaw125).map (fun f => (f.minimum : ℚ)) = some 125 ∧
    (125 : ℚ) ≠ (toI32 fanRaw125.dwMin : ℚ) / 1000 := by
  constructor
  · simp only [FanInfo.fromRaw, fanRaw125, FanType.fromU32?, CGOS_TEMP_CPU]
    norm_num [toI32]
  · norm_num [toI32, fanRaw125]

/-- C4 (amended): the temperature info conversion interprets each raw fixed
point field (resolution, minimum, maximum, alarm and hysteresis thresholds)
as a signed 32 bit milli unit value and divides it by 1000 into a floating
point engineering unit field; the fan info conversion interprets each such
raw field as a signed 32 bit value and stores it unscaled as a signed
integer. -/
theorem sensor_info_field_conversion :
    (∀ raw ti, TemperatureInfo.fromRaw raw = some ti →
      ti.resolution = (toI32 raw.dwRes : ℚ) / 1000 ∧
      ti.minimum = (toI32 raw.dwMin : ℚ) / 1000 ∧
      ti.maximum = (toI32 raw.dwMax : ℚ) / 1000 ∧
      ti.alarm_high = (toI32 raw.dwAlarmHi : ℚ) / 1000 ∧
      ti.hysteresis_high = (toI32 raw.dwHystHi : ℚ) / 1000 ∧
      ti.alarm_low = (toI32 raw.dwAlarmLo : ℚ) / 1000 ∧
      ti.hysteresis_low = (toI32 raw.dwHystLo : ℚ) / 1000) ∧
    (∀ raw fi, FanInfo.fromRaw raw = some fi →
      fi.speed_nominal = toI32 raw.dwSpeedNom ∧
      fi.minimum = toI32 raw.dwMin ∧
      fi.maximum = toI32 raw.dwMax ∧
      fi.alarm_high = toI32 raw.dwAlarmHi ∧
      fi.hysteresis_high = toI32 raw.dwHystHi ∧
      fi.alarm_low = toI32 raw.dwAlarmLo ∧
      fi.hysteresis_low = toI32 raw.dwHystLo ∧
      fi.out_minimum = toI32 raw.dwOutMin ∧
      fi.out_maximum = toI32 raw.dwOutMax) := by
  constructor
  · intro raw ti h
    simp only [TemperatureInfo.fromRaw, Option.map_eq_some'] at h
    rcases h with ⟨t, ht, rfl⟩
    exact ⟨rfl, rfl, rfl, rfl, rfl, rfl, rfl⟩
  · intro raw fi h
    simp only [FanInfo.fromRaw, Option.map_eq_some'] at h
    rcases h with ⟨t, ht, rfl⟩
    exact ⟨rfl, rfl, rfl, rfl, rfl, rfl, rfl, rfl, rfl⟩

/-- Witness for C4: the conversion hypotheses hold at the concrete
temperature snapshot with raw resolution 125 and the concrete fan snapshot
with raw minimum 125, and the field equations follow. -/
theorem sensor_info_field_conversion_witness :
    TemperatureInfo.fromRaw (TemperatureInfo.intoRaw resolutionEighth) =
      some resolutionEighth ∧
    FanInfo.fromRaw fanRaw125 = some fanConv125 ∧
    resolutionEighth.resolution =
      (toI32 (TemperatureInfo.intoRaw resolutionEighth).dwRes : ℚ) / 1000 ∧
    fanConv125.minimum = toI32 fanRaw125.dwMin := by
  have ht := fromRaw_intoRaw_resolutionEighth
  have hf : FanInfo.fromRaw fanRaw125 = some fanConv125 := by decide
  exact ⟨ht, hf, (sensor_info_field_conversion.1 _ _ ht).1,
    (sensor_info_field_conversion.2 _ _ hf).2.1⟩

/-- Counterexample for C5: the raw SMB constant differs from the primary
constant, yet it does not decode to the escape variant carrying it; it
decodes to the Smb variant. So it is not the case that every raw value
other than the primary constant decodes to the escape variant. -/
theorem i2c_type_smb_not_escape :
    CGOS_I2C_TYPE_SMB ≠ CGOS_I2C_TYPE_PRIMARY ∧
    I2cType.fromU32 CGOS_I2C_TYPE_SMB = I2cType.Smb ∧
    I2cType.fromU32 CGOS_I2C_TYPE_SMB ≠
      I2cType.CongatecInternalUse CGOS_I2C_TYPE_SMB := by
  refine ⟨by decide, by decide, by decide⟩

/-- C5 (amended): the raw value equal to the documented primary constant
decodes to the Primary variant, and likewise the documented unknown, SMB
and DDC constants decode to the Unknown, Smb and Ddc variants; every raw
value outside the four documented constants decodes to the escape variant
carrying that exact raw value; re-encoding the escape variant reproduces
the raw value unchanged; and encoding after decoding is the identity on
every raw u32 value. -/
theorem i2c_type_decode_encode :
    (I2cType.fromU32 CGOS_I2C_TYPE_UNKNOWN = I2cType.Unknown) ∧
    (I2cType.fromU32 CGOS_I2C_TYPE_PRIMARY = I2cType.Primary) ∧
    (I2cType.fromU32 CGOS_I2C_TYPE_SMB = I2cType.Smb) ∧
    (I2cType.fromU32 CGOS_I2C_TYPE_DDC = I2cType.Ddc) ∧
    (∀ v, v ≠ CGOS_I2C_TYPE_UNKNOWN → v ≠ CGOS_I2C_TYPE_PRIMARY →
      v ≠ CGOS_I2C_TYPE_SMB → v ≠ CGOS_I2C_TYPE_DDC →
      I2cType.fromU32 v = I2cType.CongatecInternalUse v) ∧
    (∀ v, I2cType.intoU32 (I2cType.CongatecInternalUse v) = v) ∧
    (∀ v, I2cType.intoU32 (I2cType.fromU32 v) = v) := by
  refine ⟨by decide, by decide, by decide, by decide,
    fun v h1 h2 h3 h4 => ?_, fun v => rfl, fun v => ?_⟩
  · simp [I2cType.fromU32, h1, h2, h3, h4]
  · simp only [I2cType.fromU32]
    split_ifs <;> simp_all [I2cType.intoU32, CGOS_I2C_TYPE_UNKNOWN,
      CGOS_I2C_TYPE_PRIMARY, CGOS_I2C_TYPE_SMB, CGOS_I2C_TYPE_DDC]

/-- Witness for C5: the raw value 5 is outside the four documented
constants and decodes to the escape variant carrying 5. -/
theorem i2c_type_decode_encode_witness :
    (5 : Nat) ≠ CGOS_I2C_TYPE_UNKNOWN ∧ (5 : Nat) ≠ CGOS_I2C_TYPE_PRIMARY ∧
    (5 : Nat) ≠ CGOS_I2C_TYPE_SMB ∧ (5 : Nat) ≠ CGOS_I2C_TYPE_DDC ∧
    I2cType.fromU32 5 = I2cType.CongatecInternalUse 5 :=
  ⟨by decide, by decide, by decide, by decide,
    i2c_type_decode_encode.2.2.2.2.1 5 (by decide) (by decide) (by decide)
      (by decide)⟩

/-- C6: for each capability bit set type (Status, BoardClass,
StorageAreaType), converting a truncated value to raw bits and truncating
again is idempotent: from_bits_truncate of bits of from_bits_truncate x
equals from_bits_truncate x, for every raw u32 value x. -/
theorem capability_bits_truncate_idempotent :
    (∀ x, Status.from_bits_truncate (Status.from_bits_truncate x).bits =
      Status.from_bits_truncate x) ∧
    (∀ x, BoardClass.from_bits_truncate (BoardClass.from_bits_truncate x).bits =
      BoardClass.from_bits_truncate x) ∧
    (∀ x, StorageAreaType.from_bits_truncate
      (StorageAreaType.from_bits_truncate x).bits =
      StorageAreaType.from_bits_truncate x) := by
  refine ⟨fun x => ?_, fun x => ?_, fun x => ?_⟩ <;>
    simp only [Status.from_bits_truncate, BoardClass.from_bits_truncate,
      StorageAreaType.from_bits_truncate] <;>
    rw [and_mask_idem]

set_option maxHeartbeats 1600000 in
/-- C7: for both sensor kinds, decoding a raw sensor type enumerant panics
(returns none in the embedding) exactly when the raw value is outside the
closed ten value vocabulary; every value in the vocabulary decodes to a
variant whose re-encoding yields the original raw value. -/
theorem sensor_type_closed_vocabulary :
    (∀ v, TemperatureType.fromU32? v = none ↔ v ∉ sensorTypeValues) ∧
    (∀ v, v ∈ sensorTypeValues →
      ∃ t, TemperatureType.fromU32? v = some t ∧ TemperatureType.intoU32 t = v) ∧
    (∀ v, FanType.fromU32? v = none ↔ v ∉ sensorTypeValues) ∧
    (∀ v, v ∈ sensorTypeValues →
      ∃ t, FanType.fromU32? v = some t ∧ FanType.intoU32 t = v) := by
  refine ⟨fun v => ?_, fun v hv => ?_, fun v => ?_, fun v hv => ?_⟩
  · simp only [TemperatureType.fromU32?, sensorTypeValues, List.mem_cons,
      List.not_mem_nil, or_false, CGOS_TEMP_CPU, CGOS_TEMP_BOX, CGOS_TEMP_ENV,
      CGOS_TEMP_BOARD, CGOS_TEMP_BACKPLANE, CGOS_TEMP_CHIPSETS,
      CGOS_TEMP_VIDEO, CGOS_TEMP_OTHER, CGOS_TEMP_TOPDIMM_ENV,
      CGOS_TEMP_BOTDIMM_ENV]
    split_ifs with h1 h2 h3 h4 h5 h6 h7 h8 h9 h10
    · subst h1; decide
    · subst h2; decide
    · subst h3; decide
    · subst h4; decide
    · subst h5; decide
    · subst h6; decide
    · subst h7; decide
    · subst h8; decide
    · subst h9; decide
    · subst h10; decide
    · exact ⟨fun _ => by omega, fun _ => rfl⟩
  · simp only [sensorTypeValues, List.mem_cons, List.not_mem_nil, or_false]
      at hv
    rcases hv with h | h | h | h | h | h | h | h | h | h <;> subst h
    · exact ⟨.Cpu, rfl, rfl⟩
    · exact ⟨.Box, rfl, rfl⟩
    · exact ⟨.Environment, rfl, rfl⟩
    · exact ⟨.Board, rfl, rfl⟩
    · exact ⟨.Backplane, rfl, rfl⟩
    · exact ⟨.Chipsets, rfl, rfl⟩
    · exact ⟨.Video, rfl, rfl⟩
    · exact ⟨.Other, rfl, rfl⟩
    · exact ⟨.TopRAMEnvironment, rfl, rfl⟩
    · exact ⟨.BottomRAMEnvironment, rfl, rfl⟩
  · simp only [FanType.fromU32?, sensorTypeValues, List.mem_cons,
      List.not_mem_nil, or_false, CGOS_TEMP_CPU, CGOS_TEMP_BOX, CGOS_TEMP_ENV,
      CGOS_TEMP_BOARD, CGOS_TEMP_BACKPLANE, CGOS_TEMP_CHIPSETS,
      CGOS_TEMP_VIDEO, CGOS_TEMP_OTHER, CGOS_TEMP_TOPDIMM_ENV,
      CGOS_TEMP_BOTDIMM_ENV]
    split_ifs with h1 h2 h3 h4 h5 h6 h7 h8 h9 h10
    · subst h1; decide
    · subst h2; decide
    · subst h3; decide
    · subst h4; decide
    · subst h5; decide
    · subst h6; decide
    · subst h7; decide
    · subst h8; decide
    · subst h9; decide
    · subst h10; decide
    · exact ⟨fun _ => by omega, fun _ => rfl⟩
  · simp only [sensorTypeValues, List.mem_cons, List.not_mem_nil, or_false]
      at hv
    rcases hv with h | h | h | h | h | h | h | h | h | h <;> subst h
    · exact ⟨.Cpu, rfl, rfl⟩
    · exact ⟨.Box, rfl, rfl⟩
    · exact ⟨.Environment, rfl, rfl⟩
    · exact ⟨.Board, rfl, rfl⟩
    · exact ⟨.Backplane, rfl, rfl⟩
    · exact ⟨.Chipsets, rfl, rfl⟩
    · exact ⟨.Video, rfl, rfl⟩
    · exact ⟨.Other, rfl, rfl⟩
    · exact ⟨.TopRAMEnvironment, rfl, rfl⟩
    · exact ⟨.BottomRAMEnvironment, rfl, rfl⟩

/-- Witness for C7: the CPU enumerant lies in the vocabulary and decodes,
for both sensor kinds, to a variant that re-encodes to it. -/
theorem sensor_type_closed_vocabulary_witness :
    CGOS_TEMP_CPU ∈ sensorTypeValues ∧
    (∃ t, TemperatureType.fromU32? CGOS_TEMP_CPU = some t ∧
      TemperatureType.intoU32 t = CGOS_TEMP_CPU) ∧
    (∃ t, FanType.fromU32? CGOS_TEMP_CPU = some t ∧
      FanType.intoU32 t = CGOS_TEMP_CPU) :=
  ⟨by decide, sensor_type_closed_vocabulary.2.1 _ (by decide),
    sensor_type_closed_vocabulary.2.2.2 _ (by decide)⟩

/-- C8: the domain snapshot with resolution 0.125 converts to a raw
snapshot whose dwRes field holds the raw milli unit value 125, and
converting that raw snapshot back recovers resolution 0.125 exactly (the
rational model of the f32 divide and multiply pair is exact at this
value). -/
theorem temperature_resolution_round_trip :
    (TemperatureInfo.intoRaw resolutionEighth).dwRes = 125 ∧
    (TemperatureInfo.fromRaw (TemperatureInfo.intoRaw resolutionEighth)).map
      (fun t => t.resolution) = some 0.125 := by
  constructor
  · simp only [TemperatureInfo.intoRaw, resolutionEighth]
    norm_num [ratTruncSatI32, intToU32]
    rfl
  · rw [fromRaw_intoRaw_resolutionEighth]
    rfl

/-- C9: storage area selection is lazy. Construction by ordinal index and
construction by capability class issue no raw call (their call traces are
empty) and only record the board handle and the selector; by contrast, an
operation such as size issues its query. -/
theorem storage_area_construction_is_lazy (handle index : Nat)
    (h : index < 4294967296) :
    StorageArea.from_index handle index =
      (some { handle := handle, unit := index }, []) ∧
    (∀ t, StorageArea.from_type handle t =
      ({ handle := handle, unit := t.bits }, [])) ∧
    (∀ env a, StorageArea.size env a =
      (env.storageAreaSize a.handle a.unit,
       [RawCall.storageAreaSize a.handle a.unit])) := by
  refine ⟨?_, fun t => rfl, fun env a => rfl⟩
  simp [StorageArea.from_index, h]

/-- Witness for C9: construction by index 5 on handle 3 records the pair
and issues no raw call. -/
theorem storage_area_construction_is_lazy_witness :
    (5 : Nat) < 4294967296 ∧
    StorageArea.from_index 3 5 = (some { handle := 3, unit := 5 }, []) :=
  ⟨by decide, (storage_area_construction_is_lazy 3 5 (by decide)).1⟩

/-- C10: is_available returns true exactly when the raw availability query
returns the literal 1; every other raw result, nonzero included, is
reported as unavailable. The accessor issues exactly the availability
query. -/
theorem i2c_is_available_iff_raw_one (env : CgosEnv) (bus : I2c) :
    ((I2c.is_available env bus).1 = true ↔
      env.i2cIsAvailable bus.handle bus.index = 1) ∧
    (I2c.is_available env bus).2 =
      [RawCall.i2cIsAvailable bus.handle bus.index] := by
  constructor
  · simp [I2c.is_available]
  · rfl

end Cgos
